import Mathlib

/-!
Verification of the AgnoX call-center core: queue scheduler
(`app/services/queue_manager.py`), transfer orchestrator
(`app/services/transfer_handler.py`, `app/api/routes/calls.py`) and session
lifecycle tracker (`app/services/customer_service.py`).

The database-backed operations are embedded shallowly: the relevant tables
(`call_queue`, `agents`, `call_sessions`) become lists of records, each SQL
`UPDATE ... WHERE <key> = $n` becomes a `List.map` rewriting the matching
rows, `SELECT ... ORDER BY` becomes a filter followed by an insertion sort,
and `datetime.now()` becomes an explicit time parameter.  Fallible external
I/O (the LiveKit telephony gateway) is modelled by an explicit environment
record saying which gateway calls succeed; in-process exceptions from the
store itself are not modelled (the no-fault store model), which is why
operations whose Python bodies return `False` only inside an `except` block
return `true` here unconditionally.
-/

namespace AgnoX

/-- Queue entry status values, from `QueueStatus` in `queue_manager.py`
(stored as the strings "waiting" / "assigned" / "completed" / "abandoned"). -/
inductive QueueStatus where
  | waiting
  | assigned
  | completed
  | abandoned
deriving DecidableEq, Repr

/-- Agent availability, from `AgentStatus` in `queue_manager.py`. -/
inductive AgentStatus where
  | online
  | busy
  | offline
  | away
deriving DecidableEq, Repr

/-- One row of the `call_queue` table.  `joinTime` is the creation
timestamp column `join_time`; priorities are the integers 0-3 from
`QueuePriority` (LOW = 0, NORMAL = 1, HIGH = 2, URGENT = 3). -/
structure QueueEntry where
  queueId : Nat
  customerId : Nat
  phoneNumber : String
  roomName : String
  priority : Nat
  status : QueueStatus
  joinTime : Nat
  assignedAt : Option Nat := none
  completedAt : Option Nat := none
  abandonedAt : Option Nat := none
  assignedAgentId : Option Nat := none
deriving DecidableEq, Repr

/-- One row of the `agents` table. -/
structure Agent where
  agentId : Nat
  phoneNumber : String
  status : AgentStatus
  currentCallCount : Nat
  maxConcurrentCalls : Nat
deriving DecidableEq, Repr

/-- The store state seen by `QueueManager`: the `call_queue` and `agents`
tables. -/
structure DB where
  queue : List QueueEntry
  agents : List Agent
deriving DecidableEq, Repr

/-- Row predicate for `WHERE queue_id = $qid`. -/
def byId (qid : Nat) (e : QueueEntry) : Bool :=
  e.queueId == qid

/-- Priority constants from `QueuePriority`. -/
def priorityLow : Nat := 0

/-- Constant `QueuePriority.NORMAL`. -/
def priorityNormal : Nat := 1

/-- Constant `QueuePriority.HIGH`. -/
def priorityHigh : Nat := 2

/-- Embedding of `QueueManager.add_to_queue`: INSERT a fresh row in state `waiting`;
the assignment/terminal columns take their table defaults (NULL). -/
def add_to_queue (t qid customerId : Nat) (phone room : String)
    (priority : Nat) (db : DB) : DB :=
  { db with
      queue := db.queue ++
        [{ queueId := qid, customerId := customerId, phoneNumber := phone,
           roomName := room, priority := priority,
           status := QueueStatus.waiting, joinTime := t }] }

/-- The `WHERE` clause of `get_available_agent`:
`status = 'online' AND current_call_count < max_concurrent_calls`. -/
def eligibleAgent (a : Agent) : Bool :=
  a.status == AgentStatus.online &&
    decide (a.currentCallCount < a.maxConcurrentCalls)

/-- The `ORDER BY current_call_count ASC` comparison of
`get_available_agent`. -/
def loadLE (a b : Agent) : Prop :=
  a.currentCallCount ≤ b.currentCallCount

instance : DecidableRel loadLE := fun a b =>
  inferInstanceAs (Decidable (a.currentCallCount ≤ b.currentCallCount))

instance : IsTotal Agent loadLE :=
  ⟨fun a b => Nat.le_total a.currentCallCount b.currentCallCount⟩

instance : IsTrans Agent loadLE :=
  ⟨fun _ _ _ hab hbc => Nat.le_trans hab hbc⟩

/-- Embedding of `QueueManager.get_available_agent`: SELECT the id of an online agent
with spare capacity, least-loaded first (`LIMIT 1`). -/
def get_available_agent (db : DB) : Option Nat :=
  match List.insertionSort loadLE (db.agents.filter eligibleAgent) with
  | [] => none
  | a :: _ => some a.agentId

/-- The row rewrite performed on `call_queue` by `assign_to_agent`:
`SET status = 'assigned', assigned_agent_id = $aid, assigned_at = $t`. -/
def assignEntry (t aid : Nat) (e : QueueEntry) : QueueEntry :=
  { e with status := QueueStatus.assigned,
           assignedAgentId := some aid, assignedAt := some t }

/-- Embedding of `QueueManager.assign_to_agent`: in one transaction, rewrite the queue
row with `queue_id = qid` to `assigned` and increment the call count of the
agent row with `agent_id = aid`.  Neither UPDATE has a condition on the
current row state; the Python returns `False` only when the store raises,
so the no-fault model always returns `true`. -/
def assign_to_agent (t qid aid : Nat) (db : DB) : Bool × DB :=
  (true,
   { queue := db.queue.map fun e =>
       if e.queueId = qid then assignEntry t aid e else e,
     agents := db.agents.map fun a =>
       if a.agentId = aid then
         { a with currentCallCount := a.currentCallCount + 1 }
       else a })

/-- Embedding of `QueueManager.mark_completed`:
`SET status = 'completed', completed_at = $t WHERE queue_id = $qid`,
unconditionally; returns `True` barring store exceptions. -/
def mark_completed (t qid : Nat) (db : DB) : Bool × DB :=
  (true,
   { db with queue := db.queue.map fun e =>
       if e.queueId = qid then
         { e with status := QueueStatus.completed, completedAt := some t }
       else e })

/-- Embedding of `QueueManager.mark_abandoned`:
`SET status = 'abandoned', abandoned_at = $t WHERE queue_id = $qid`,
unconditionally; returns `True` barring store exceptions. -/
def mark_abandoned (t qid : Nat) (db : DB) : Bool × DB :=
  (true,
   { db with queue := db.queue.map fun e =>
       if e.queueId = qid then
         { e with status := QueueStatus.abandoned, abandonedAt := some t }
       else e })

/-- The counting predicate of `get_queue_position`: waiting rows whose
priority is strictly above the probed entry's, or equal with
`queue_id <= $qid` (which includes the probed row itself). -/
def posPred (qid p : Nat) (x : QueueEntry) : Bool :=
  x.status == QueueStatus.waiting &&
    (decide (p < x.priority) ||
       (x.priority == p && decide (x.queueId ≤ qid)))

/-- Embedding of `QueueManager.get_queue_position`: COUNT the waiting rows ahead of (or
equal to) the probed row in (priority, queue_id) order.  When no row has
`queue_id = qid` the SQL subselect yields NULL, every comparison is
unknown, and the count is 0. -/
def get_queue_position (db : DB) (qid : Nat) : Option Nat :=
  match db.queue.find? (byId qid) with
  | some e => some ((db.queue.filter (posPred qid e.priority)).length)
  | none => some 0

/-- The `ORDER BY priority DESC, join_time ASC` comparison of
`get_waiting_calls`. -/
def waitingOrder (a b : QueueEntry) : Prop :=
  b.priority < a.priority ∨
    (a.priority = b.priority ∧ a.joinTime ≤ b.joinTime)

instance : DecidableRel waitingOrder := fun _ _ =>
  inferInstanceAs (Decidable (_ ∨ _))

instance : IsTotal QueueEntry waitingOrder := by
  constructor
  intro a b
  rcases Nat.lt_trichotomy a.priority b.priority with h | h | h
  · exact Or.inr (Or.inl h)
  · rcases Nat.le_total a.joinTime b.joinTime with hj | hj
    · exact Or.inl (Or.inr ⟨h, hj⟩)
    · exact Or.inr (Or.inr ⟨h.symm, hj⟩)
  · exact Or.inl (Or.inl h)

instance : IsTrans QueueEntry waitingOrder := by
  constructor
  intro a b c hab hbc
  rcases hab with h1 | ⟨h1, j1⟩ <;> rcases hbc with h2 | ⟨h2, j2⟩
  · exact Or.inl (Nat.lt_trans h2 h1)
  · exact Or.inl (h2 ▸ h1)
  · exact Or.inl (h1 ▸ h2)
  · exact Or.inr ⟨h1.trans h2, j1.trans j2⟩

/-- Embedding of `QueueManager.get_waiting_calls`: all rows in state `waiting`, ordered
by priority descending then join time ascending. -/
def get_waiting_calls (db : DB) : List QueueEntry :=
  List.insertionSort waitingOrder
    (db.queue.filter fun e => e.status == QueueStatus.waiting)

/-- Embedding of `QueueManager.dispatch_to_ai`: ask the gateway to dispatch the AI agent
into the call's room; only if that call succeeds, rewrite the queue row to
`assigned` (leaving `assigned_agent_id` untouched).  A gateway failure hits
the `except` branch before the UPDATE runs: the row is unchanged and the
method returns `False`. -/
def dispatch_to_ai (gatewayOk : Bool) (t qid : Nat) (db : DB) : Bool × DB :=
  if gatewayOk then
    (true,
     { db with queue := db.queue.map fun e =>
         if e.queueId = qid then
           { e with status := QueueStatus.assigned, assignedAt := some t }
         else e })
  else
    (false, db)

/-- The `for call in waiting_calls` loop body of
`QueueManager.process_queue`: for each call, look for an available human
agent; assign to it if found (the returned flag is only logged), otherwise
fall back to the AI dispatch (its failure is only logged). -/
def processCalls (gatewayOk : Bool) (t : Nat) :
    List QueueEntry → DB → DB
  | [], db => db
  | call :: rest, db =>
    match get_available_agent db with
    | some aid =>
      processCalls gatewayOk t rest (assign_to_agent t call.queueId aid db).2
    | none =>
      processCalls gatewayOk t rest (dispatch_to_ai gatewayOk t call.queueId db).2

/-- One poll cycle of `QueueManager.process_queue`. -/
def process_queue (gatewayOk : Bool) (t : Nat) (db : DB) : DB :=
  processCalls gatewayOk t (get_waiting_calls db) db

/-- Decidable form of the capacity invariant over the `agents` table:
`current_call_count <= max_concurrent_calls` for every row (the lower
bound `0 <= current_call_count` is inherent in the `Nat` embedding). -/
def agentsWithinCapacity (db : DB) : Bool :=
  db.agents.all fun a => decide (a.currentCallCount ≤ a.maxConcurrentCalls)

/-- One row of the `call_sessions` table, restricted to the columns the
transfer path touches.  `handledBy` carries the stored string ("ai" or
"human"), mirroring the string comparison in the SQL `CASE`. -/
structure CallSession where
  sessionId : Nat
  roomName : String
  handledBy : String
  agentId : Option Nat := none
  transferCount : Nat := 0
deriving DecidableEq, Repr

/-- Embedding of `CustomerService.update_session_handler`: overwrite `handled_by` and
`agent_id` on the matching session row, and bump `transfer_count` exactly
when the new handler string is "human"
(`CASE WHEN $1 = 'human' THEN transfer_count + 1 ELSE transfer_count END`). -/
def update_session_handler (sid : Nat) (handlerType : String)
    (aid : Option Nat) (sessions : List CallSession) : List CallSession :=
  sessions.map fun s =>
    if s.sessionId = sid then
      { s with handledBy := handlerType, agentId := aid,
               transferCount :=
                 if handlerType = "human" then s.transferCount + 1
                 else s.transferCount }
    else s

/-- Embedding of `TransferHandler.log_transfer` (defined in the source but never invoked
from any transfer path): the session rewrite it would perform —
`agent_id = $aid, handled_by = 'human', transfer_count = transfer_count + 1`. -/
def log_transfer (sid aid : Nat) (sessions : List CallSession) :
    List CallSession :=
  sessions.map fun s =>
    if s.sessionId = sid then
      { s with agentId := some aid, handledBy := "human",
               transferCount := s.transferCount + 1 }
    else s

/-- Telephony gateway operations issued by the transfer orchestrator, in
the order the code issues them. -/
inductive GatewayOp where
  | listParticipants (room : String)
  | transferSip (room ident dest : String)
  | createSip (trunk dest room ident : String)
  | waitSeconds (n : Nat)
deriving DecidableEq, Repr

/-- Outcome behaviour of the external LiveKit gateway for one transfer
attempt: whether each operation succeeds, who is in the room, and whether
the dialled human actually picks up (the last is part of the world, not of
any API result the code inspects). -/
structure GatewayEnv where
  listOk : Bool
  participants : List String
  transferOk : Bool
  dialOk : Bool
  agentPicksUp : Bool
deriving DecidableEq, Repr

/-- The result dict returned by the transfer methods. -/
structure TransferResult where
  success : Bool
  ttype : Option String := none
  agentPhone : Option String := none
  consultationRoom : Option String := none
  error : Option String := none
deriving DecidableEq, Repr

/-- Character-list version of the containment test
`"sip" in p.identity.lower()`. -/
def headMatch : List Char → List Char → Bool
  | [], _ => true
  | _ :: _, [] => false
  | p :: ps, c :: cs => p == c && headMatch ps cs

/-- Does `pat` occur contiguously inside the character list? -/
def containsSeq (pat : List Char) : List Char → Bool
  | [] => headMatch pat []
  | c :: cs => headMatch pat (c :: cs) || containsSeq pat cs

/-- The customer-participant probe of `cold_transfer`:
`"sip" in p.identity.lower()` (lower-casing character by character). -/
def identityHasSip (ident : String) : Bool :=
  containsSeq "sip".data (ident.data.map Char.toLower)

/-- Embedding of `TransferHandler.cold_transfer`: list the room's participants, find the
first SIP participant, and transfer it to the agent's phone number.  Fails
(with no further side effect) when listing fails, when no SIP participant
exists, or when the gateway transfer itself raises.  The `sip_trunk_id`
argument is accepted and unused, as in the source. -/
def cold_transfer (env : GatewayEnv) (roomName agentPhone sipTrunkId : String) :
    TransferResult × List GatewayOp :=
  if env.listOk then
    match env.participants.find? identityHasSip with
    | none =>
      ({ success := false, error := some "No customer found" },
       [GatewayOp.listParticipants roomName])
    | some ident =>
      if env.transferOk then
        ({ success := true, ttype := some "cold",
           agentPhone := some agentPhone },
         [GatewayOp.listParticipants roomName,
          GatewayOp.transferSip roomName ident agentPhone])
      else
        ({ success := false, error := some "transfer failed" },
         [GatewayOp.listParticipants roomName,
          GatewayOp.transferSip roomName ident agentPhone])
  else
    ({ success := false, error := some "list participants failed" },
     [GatewayOp.listParticipants roomName])

/-- Embedding of `TransferHandler.warm_transfer`: dial the human agent into the
consultation room `consult-<session_id>` (one gateway operation), then
`await asyncio.sleep(3)` and return success.  Nothing after the dial can
fail and nothing inspects whether the agent picked up; only a failed dial
reaches the `except` branch and reports failure. -/
def warm_transfer (env : GatewayEnv)
    (callerRoom agentPhone sipTrunkId conversationContext : String)
    (sessionId : Nat) : TransferResult × List GatewayOp :=
  let consultationRoom := "consult-" ++ toString sessionId
  if env.dialOk then
    ({ success := true, ttype := some "warm", agentPhone := some agentPhone,
       consultationRoom := some consultationRoom },
     [GatewayOp.createSip sipTrunkId agentPhone consultationRoom
        ("agent-" ++ agentPhone),
      GatewayOp.waitSeconds 3])
  else
    ({ success := false, error := some "dial failed" },
     [GatewayOp.createSip sipTrunkId agentPhone consultationRoom
        ("agent-" ++ agentPhone)])

/-- HTTP-level failures of the transfer route. -/
inductive ApiError where
  | notFound (detail : String)
deriving DecidableEq, Repr

/-- The `TransferResponse` schema returned by the route. -/
structure TransferResponse where
  success : Bool
  message : String
  agentId : Nat
  transferType : String
deriving DecidableEq, Repr

/-- Embedding of `POST /calls/{session_id}/transfer` (`transfer_call` in
`api/routes/calls.py`): look up the session's room and the agent's phone,
run the cold or warm transfer, and return the response.  The route body
contains no UPDATE of `call_sessions`, so the sessions table is returned
exactly as received on every path. -/
def transfer_call (env : GatewayEnv) (db : DB)
    (sessions : List CallSession) (sessionId reqAgentId : Nat)
    (transferType reason trunkId : String) :
    Except ApiError TransferResponse × List CallSession :=
  match sessions.find? (fun s => s.sessionId == sessionId) with
  | none => (Except.error (ApiError.notFound "Call session not found"), sessions)
  | some call =>
    match db.agents.find? (fun a => a.agentId == reqAgentId) with
    | none => (Except.error (ApiError.notFound "Agent not found"), sessions)
    | some agent =>
      let result :=
        if transferType = "cold" then
          (cold_transfer env call.roomName agent.phoneNumber trunkId).1
        else
          (warm_transfer env call.roomName agent.phoneNumber trunkId
             reason sessionId).1
      (Except.ok
         { success := result.success,
           message := "Call transferred to agent " ++ toString reqAgentId,
           agentId := reqAgentId, transferType := transferType },
       sessions)

/-- Recogniser for the dial operation (`create_sip_participant`) in a
gateway trace. -/
def isDialOp : GatewayOp → Bool
  | GatewayOp.createSip _ _ _ _ => true
  | _ => false

/-- Count of other waiting rows strictly ahead of the probed row under the
(priority desc, queue_id asc) ranking that `get_queue_position` uses: a row
counts when its priority is strictly higher, or equal with a strictly
smaller `queue_id`. -/
def aheadPred (qid p : Nat) (x : QueueEntry) : Bool :=
  !(x.queueId == qid) &&
    (x.status == QueueStatus.waiting &&
      (decide (p < x.priority) ||
         (x.priority == p && decide (x.queueId < qid))))

/-- Entry already assigned to agent 1: the target of the second, racing
assignment attempt. -/
def entryC1 : QueueEntry :=
  { queueId := 1, customerId := 10, phoneNumber := "+15550001",
    roomName := "room-1", priority := 1, status := QueueStatus.assigned,
    joinTime := 0, assignedAt := some 1, assignedAgentId := some 1 }

/-- Store where entry 1 is no longer `waiting` and agent 2 still has
capacity. -/
def dbC1 : DB :=
  { queue := [entryC1],
    agents :=
      [{ agentId := 1, phoneNumber := "+15551001",
         status := AgentStatus.busy, currentCallCount := 1,
         maxConcurrentCalls := 1 },
       { agentId := 2, phoneNumber := "+15551002",
         status := AgentStatus.online, currentCallCount := 0,
         maxConcurrentCalls := 1 }] }

/-- Store whose single agent is exactly at capacity. -/
def dbC2 : DB :=
  { queue :=
      [{ queueId := 1, customerId := 11, phoneNumber := "+15550002",
         roomName := "room-2", priority := 1,
         status := QueueStatus.waiting, joinTime := 0 }],
    agents :=
      [{ agentId := 1, phoneNumber := "+15551001",
         status := AgentStatus.online, currentCallCount := 1,
         maxConcurrentCalls := 1 }] }

/-- Store with one waiting call and one free agent, for the capacity
witness. -/
def dbC2w : DB :=
  { queue :=
      [{ queueId := 1, customerId := 12, phoneNumber := "+15550003",
         roomName := "room-3", priority := 2,
         status := QueueStatus.waiting, joinTime := 0 }],
    agents :=
      [{ agentId := 1, phoneNumber := "+15551001",
         status := AgentStatus.online, currentCallCount := 0,
         maxConcurrentCalls := 1 }] }

/-- Store with a waiting entry (id 4) and an already-abandoned, hence
terminal, entry (id 5). -/
def dbC3 : DB :=
  { queue :=
      [{ queueId := 4, customerId := 13, phoneNumber := "+15550004",
         roomName := "room-4", priority := 1,
         status := QueueStatus.waiting, joinTime := 0 },
       { queueId := 5, customerId := 14, phoneNumber := "+15550005",
         roomName := "room-5", priority := 1,
         status := QueueStatus.abandoned, joinTime := 0,
         abandonedAt := some 1 }],
    agents := [] }

/-- Waiting entry with no assigned agent, the normal input of the AI
fallback. -/
def entryC4 : QueueEntry :=
  { queueId := 1, customerId := 15, phoneNumber := "+15550006",
    roomName := "room-6", priority := 1, status := QueueStatus.waiting,
    joinTime := 0 }

/-- Store containing only `entryC4` and no agents. -/
def dbC4 : DB := { queue := [entryC4], agents := [] }

/-- Store with entries of priorities [Low, High, Normal, Normal] inserted
in that creation order (ids 1, 2, 3, 9; the fourth has a larger id but an
earlier join time than the third) and one eligible agent. -/
def dbC5 : DB :=
  { queue :=
      [{ queueId := 1, customerId := 20, phoneNumber := "+15550020",
         roomName := "room-20", priority := priorityLow,
         status := QueueStatus.waiting, joinTime := 1 },
       { queueId := 2, customerId := 21, phoneNumber := "+15550021",
         roomName := "room-21", priority := priorityHigh,
         status := QueueStatus.waiting, joinTime := 2 },
       { queueId := 3, customerId := 22, phoneNumber := "+15550022",
         roomName := "room-22", priority := priorityNormal,
         status := QueueStatus.waiting, joinTime := 3 },
       { queueId := 9, customerId := 23, phoneNumber := "+15550023",
         roomName := "room-23", priority := priorityNormal,
         status := QueueStatus.waiting, joinTime := 2 }],
    agents :=
      [{ agentId := 7, phoneNumber := "+15551007",
         status := AgentStatus.online, currentCallCount := 0,
         maxConcurrentCalls := 1 }] }

/-- Session currently handled by the AI, before any transfer. -/
def sessionC6 : CallSession :=
  { sessionId := 1, roomName := "room-1", handledBy := "ai",
    agentId := none, transferCount := 0 }

/-- Agent directory for the transfer route lookup. -/
def dbC6 : DB :=
  { queue := [],
    agents :=
      [{ agentId := 7, phoneNumber := "+15550007",
         status := AgentStatus.online, currentCallCount := 0,
         maxConcurrentCalls := 1 }] }

/-- Gateway world where every operation succeeds and a SIP customer is in
the room. -/
def envC6 : GatewayEnv :=
  { listOk := true, participants := ["sip-customer"], transferOk := true,
    dialOk := true, agentPicksUp := true }

/-- Gateway world where the consultation dial succeeds but the human agent
never picks up. -/
def envC7 : GatewayEnv :=
  { listOk := true, participants := ["sip-customer"], transferOk := true,
    dialOk := true, agentPicksUp := false }

/-- Entry that is terminal: `completed_at` is set. -/
def entryC8 : QueueEntry :=
  { queueId := 3, customerId := 16, phoneNumber := "+15550008",
    roomName := "room-8", priority := 1, status := QueueStatus.completed,
    joinTime := 0, assignedAt := some 2, completedAt := some 4,
    assignedAgentId := some 1 }

/-- Store containing only the terminal `entryC8`. -/
def dbC8 : DB := { queue := [entryC8], agents := [] }

/-- Session already handled by a human, with three recorded transfers. -/
def sessC9 : List CallSession :=
  [{ sessionId := 1, roomName := "room-9", handledBy := "human",
     agentId := some 2, transferCount := 3 }]

/-- Waiting entry created first (join time 1) but holding the larger id. -/
def entryC10a : QueueEntry :=
  { queueId := 2, customerId := 17, phoneNumber := "+15550010",
    roomName := "room-10", priority := 1, status := QueueStatus.waiting,
    joinTime := 1 }

/-- Waiting entry created second (join time 2) but holding the smaller
id. -/
def entryC10b : QueueEntry :=
  { queueId := 1, customerId := 18, phoneNumber := "+15550011",
    roomName := "room-11", priority := 1, status := QueueStatus.waiting,
    joinTime := 2 }

/-- Store where id order and creation order disagree within one priority
band. -/
def dbC10 : DB := { queue := [entryC10a, entryC10b], agents := [] }

theorem find?_map_pres {α : Type} (g : α → α) (p : α → Bool)
    (hg : ∀ a, p (g a) = p a) :
    ∀ l : List α, (l.map g).find? p = (l.find? p).map g
  | [] => rfl
  | a :: l => by
    by_cases h : p a = true
    · rw [List.map_cons, List.find?_cons_of_pos _ ((hg a).trans h),
        List.find?_cons_of_pos _ h]
      rfl
    · rw [List.map_cons, List.find?_cons_of_neg _ (by rw [hg a]; exact h),
        List.find?_cons_of_neg _ h, find?_map_pres g p hg l]

theorem find?_rewrite_key {α : Type} (key : α → Nat) (f : α → α) (k : Nat)
    (hf : ∀ a, key (f a) = key a) (l : List α) :
    (l.map fun a => if key a = k then f a else a).find? (fun a => key a == k)
      = (l.find? (fun a => key a == k)).map f := by
  have hg : ∀ a : α,
      (fun a => key a == k) (if key a = k then f a else a)
        = (fun a => key a == k) a := by
    intro a
    by_cases h : key a = k <;> simp [hf, h]
  refine (find?_map_pres _ _ hg l).trans ?_
  cases hfind : l.find? (fun a => key a == k) with
  | none => rfl
  | some a =>
    have ha : key a = k := by simpa using List.find?_some hfind
    simp [ha]

theorem mark_completed_twice (t1 t2 qid : Nat) (db : DB) :
    (mark_completed t2 qid (mark_completed t1 qid db).2).2
      = (mark_completed t2 qid db).2 := by
  simp only [mark_completed]
  congr 1
  rw [List.map_map]
  apply List.map_congr_left
  intro e _
  by_cases h : e.queueId = qid <;> simp [Function.comp, h]

/-- C1.  The claim says a second `transition(Waiting→Assigned)` attempt on
an entry that is no longer `Waiting` must fail.  In the source,
`assign_to_agent` runs `UPDATE call_queue SET status = 'assigned', ...
WHERE queue_id = $4` with no condition on the current status: every
attempt reports success, rewrites the entry to `assigned` (overwriting any
earlier assignment), and increments the target agent's call count again.
There is no conditional `fromState` check anywhere in the operation. -/
theorem c1_assign_has_no_state_guard :
    ∀ (db : DB) (t qid aid : Nat),
      (assign_to_agent t qid aid db).1 = true ∧
      (assign_to_agent t qid aid db).2.queue.find? (byId qid)
        = (db.queue.find? (byId qid)).map (assignEntry t aid) ∧
      (assign_to_agent t qid aid db).2.agents.find? (fun a => a.agentId == aid)
        = (db.agents.find? (fun a => a.agentId == aid)).map
            (fun a => { a with currentCallCount := a.currentCallCount + 1 }) := by
  intro db t qid aid
  refine ⟨rfl, ?_, ?_⟩
  · exact find?_rewrite_key QueueEntry.queueId (assignEntry t aid) qid
      (fun _ => rfl) db.queue
  · exact find?_rewrite_key Agent.agentId
      (fun a => { a with currentCallCount := a.currentCallCount + 1 }) aid
      (fun _ => rfl) db.agents

/-- C1 counterexample: entry 1 is already `assigned` (not `Waiting`), yet
a second assignment attempt targeting agent 2 still reports success,
overwrites the assignment, and gives agent 2 a call. -/
theorem c1_second_attempt_succeeds :
    entryC1.status ≠ QueueStatus.waiting ∧
    (assign_to_agent 5 1 2 dbC1).1 = true ∧
    (assign_to_agent 5 1 2 dbC1).2.queue.find? (byId 1)
      = some { entryC1 with
                 status := QueueStatus.assigned,
                 assignedAgentId := some 2, assignedAt := some 5 } ∧
    ((assign_to_agent 5 1 2 dbC1).2.agents.find? (fun a => a.agentId == 2)).map
        Agent.currentCallCount = some 1 := by
  refine ⟨by decide, rfl, by decide, by decide⟩

/-- C3.  What does hold of `mark_completed`: it always reports success,
and a repeated call is absorbed by the later one — the status agrees with
a single call, but `completed_at` is overwritten with the second call's
clock reading, so calling twice equals calling once only at the same
timestamp (third conjunct). -/
theorem c3_mark_completed_overwrite_idempotent :
    ∀ (db : DB) (t1 t2 qid : Nat),
      (mark_completed t1 qid db).1 = true ∧
      (mark_completed t2 qid (mark_completed t1 qid db).2).2
        = (mark_completed t2 qid db).2 ∧
      (mark_completed t1 qid (mark_completed t1 qid db).2).2
        = (mark_completed t1 qid db).2 := by
  intro db t1 t2 qid
  exact ⟨rfl, mark_completed_twice t1 t2 qid db, mark_completed_twice t1 t1 qid db⟩

/-- C3 counterexample: calling `mark_completed` twice at clock readings 1
then 2 leaves a different final state (a later `completed_at`) than
calling it once, and calling it on the already-abandoned entry 5 reports
success but is not a no-op — it rewrites the terminal entry. -/
theorem c3_second_call_moves_timestamp :
    (mark_completed 2 4 (mark_completed 1 4 dbC3).2).2
      ≠ (mark_completed 1 4 dbC3).2 ∧
    (mark_completed 7 5 dbC3).1 = true ∧
    (mark_completed 7 5 dbC3).2 ≠ dbC3 := by
  refine ⟨by decide, rfl, by decide⟩

/-- C8.  None of the four mutating operations checks the current state of
the queue entry: each one rewrites the matching row unconditionally, for
every starting state — including terminal ones.  No transition, inside or
outside the set {Waiting→Assigned, Waiting→Abandoned, Assigned→Completed,
Assigned→Abandoned}, is rejected. -/
theorem c8_every_transition_accepted :
    ∀ (db : DB) (t qid aid : Nat),
      (mark_completed t qid db).2.queue.find? (byId qid)
        = (db.queue.find? (byId qid)).map
            (fun e => { e with
                        status := QueueStatus.completed,
                        completedAt := some t }) ∧
      (mark_abandoned t qid db).2.queue.find? (byId qid)
        = (db.queue.find? (byId qid)).map
            (fun e => { e with
                        status := QueueStatus.abandoned,
                        abandonedAt := some t }) ∧
      (assign_to_agent t qid aid db).2.queue.find? (byId qid)
        = (db.queue.find? (byId qid)).map (assignEntry t aid) ∧
      (dispatch_to_ai true t qid db).2.queue.find? (byId qid)
        = (db.queue.find? (byId qid)).map
            (fun e => { e with
                        status := QueueStatus.assigned,
                        assignedAt := some t }) := by
  intro db t qid aid
  exact ⟨find?_rewrite_key QueueEntry.queueId
      (fun e => { e with
                  status := QueueStatus.completed,
                  completedAt := some t }) qid (fun _ => rfl) db.queue,
    find?_rewrite_key QueueEntry.queueId
      (fun e => { e with
                  status := QueueStatus.abandoned,
                  abandonedAt := some t }) qid (fun _ => rfl) db.queue,
    find?_rewrite_key QueueEntry.queueId (assignEntry t aid) qid
      (fun _ => rfl) db.queue,
    find?_rewrite_key QueueEntry.queueId
      (fun e => { e with
                  status := QueueStatus.assigned,
                  assignedAt := some t }) qid (fun _ => rfl) db.queue⟩

/-- C8 counterexample: entry 3 has `completed_at = 4` set (terminal), yet
`mark_abandoned` still rewrites it to `abandoned`, so the entry is not
immutable and the forbidden transition Completed→Abandoned is accepted. -/
theorem c8_terminal_entry_mutates :
    entryC8.completedAt = some 4 ∧
    (mark_abandoned 9 3 dbC8).2 ≠ dbC8 ∧
    (mark_abandoned 9 3 dbC8).2.queue.find? (byId 3)
      = some { entryC8 with
               status := QueueStatus.abandoned,
               abandonedAt := some 9 } := by
  refine ⟨rfl, by decide, by decide⟩

/-- C9.  `update_session_handler` bumps `transfer_count` exactly when the
requested target handler string is "human", independently of the session's
current `handled_by`; `handled_by` and `agent_id` are overwritten on every
call. -/
theorem c9_increment_depends_only_on_target :
    ∀ (sessions : List CallSession) (sid : Nat) (ht : String)
      (aid : Option Nat),
      (update_session_handler sid ht aid sessions).find?
          (fun s => s.sessionId == sid)
        = (sessions.find? (fun s => s.sessionId == sid)).map
            (fun s => { s with
                        handledBy := ht, agentId := aid,
                        transferCount :=
                          if ht = "human" then s.transferCount + 1
                          else s.transferCount }) := by
  intro sessions sid ht aid
  exact find?_rewrite_key CallSession.sessionId
    (fun s => { s with
                handledBy := ht, agentId := aid,
                transferCount :=
                  if ht = "human" then s.transferCount + 1
                  else s.transferCount }) sid (fun _ => rfl) sessions

/-- C9 counterexample: the session is already handled by "human" with 3
transfers.  Re-targeting "human" (claimed to be a no-op) increments the
count to 4; targeting "ai" (a different state, claimed to increment)
changes the handler but leaves the count at 3. -/
theorem c9_same_target_still_increments :
    (sessC9.find? (fun s => s.sessionId == 1)).map CallSession.handledBy
      = some "human" ∧
    ((update_session_handler 1 "human" (some 2) sessC9).find?
        (fun s => s.sessionId == 1)).map CallSession.transferCount
      = some 4 ∧
    ((update_session_handler 1 "ai" none sessC9).find?
        (fun s => s.sessionId == 1)).map CallSession.transferCount
      = some 3 ∧
    ((update_session_handler 1 "ai" none sessC9).find?
        (fun s => s.sessionId == 1)).map CallSession.handledBy
      = some "ai" := by
  refine ⟨by decide, by decide, by decide, by decide⟩

theorem get_available_agent_eligible {db : DB} {aid : Nat}
    (h : get_available_agent db = some aid) :
    ∃ a ∈ db.agents, a.agentId = aid ∧
      a.currentCallCount < a.maxConcurrentCalls := by
  unfold get_available_agent at h
  cases hs : List.insertionSort loadLE (db.agents.filter eligibleAgent) with
  | nil => rw [hs] at h; exact absurd h (by simp)
  | cons a rest =>
    rw [hs] at h
    have haid : a.agentId = aid := by simpa using h
    have hmem : a ∈ List.insertionSort loadLE (db.agents.filter eligibleAgent) := by
      rw [hs]
      exact List.mem_cons_self a rest
    rw [List.mem_insertionSort, List.mem_filter] at hmem
    refine ⟨a, hmem.1, haid, ?_⟩
    have h2 := hmem.2
    simp only [eligibleAgent, Bool.and_eq_true, decide_eq_true_eq] at h2
    exact h2.2

theorem assign_agents_ids (t qid aid : Nat) (db : DB) :
    (assign_to_agent t qid aid db).2.agents.map Agent.agentId
      = db.agents.map Agent.agentId := by
  show (db.agents.map fun a =>
      if a.agentId = aid then
        { a with currentCallCount := a.currentCallCount + 1 }
      else a).map Agent.agentId = db.agents.map Agent.agentId
  rw [List.map_map]
  apply List.map_congr_left
  intro a _
  by_cases h : a.agentId = aid <;> simp [Function.comp, h]

theorem dispatch_agents_eq (g : Bool) (t qid : Nat) (db : DB) :
    (dispatch_to_ai g t qid db).2.agents = db.agents := by
  cases g <;> rfl

theorem assign_preserves_capacity (t qid aid : Nat) (db : DB)
    (hids : (db.agents.map Agent.agentId).Nodup)
    (ha : ∃ a ∈ db.agents, a.agentId = aid ∧
            a.currentCallCount < a.maxConcurrentCalls)
    (hinv : ∀ a ∈ db.agents, a.currentCallCount ≤ a.maxConcurrentCalls) :
    ∀ b ∈ (assign_to_agent t qid aid db).2.agents,
      b.currentCallCount ≤ b.maxConcurrentCalls := by
  obtain ⟨a0, ha0, haid, hlt⟩ := ha
  intro b hb
  have hb2 : b ∈ db.agents.map fun a =>
      if a.agentId = aid then
        { a with currentCallCount := a.currentCallCount + 1 }
      else a := hb
  obtain ⟨x, hx, hgx⟩ := List.mem_map.mp hb2
  by_cases h : x.agentId = aid
  · have hxa : x = a0 :=
      List.inj_on_of_nodup_map hids hx ha0 (by rw [h, haid])
    subst hxa
    rw [← hgx, if_pos h]
    exact hlt
  · rw [← hgx, if_neg h]
    exact hinv x hx

theorem processCalls_preserves_capacity (g : Bool) (t : Nat) :
    ∀ (calls : List QueueEntry) (db : DB),
      (db.agents.map Agent.agentId).Nodup →
      (∀ a ∈ db.agents, a.currentCallCount ≤ a.maxConcurrentCalls) →
      ∀ a ∈ (processCalls g t calls db).agents,
        a.currentCallCount ≤ a.maxConcurrentCalls
  | [], _, _, hinv => hinv
  | call :: rest, db, hids, hinv => by
    show ∀ a ∈ (match get_available_agent db with
        | some aid =>
          processCalls g t rest (assign_to_agent t call.queueId aid db).2
        | none =>
          processCalls g t rest (dispatch_to_ai g t call.queueId db).2).agents,
      a.currentCallCount ≤ a.maxConcurrentCalls
    cases hga : get_available_agent db with
    | some aid =>
      exact processCalls_preserves_capacity g t rest _
        (by rw [assign_agents_ids]; exact hids)
        (assign_preserves_capacity t call.queueId aid db hids
          (get_available_agent_eligible hga) hinv)
    | none =>
      refine processCalls_preserves_capacity g t rest _ ?_ ?_
      · rw [dispatch_agents_eq]; exact hids
      · intro a ha
        rw [dispatch_agents_eq] at ha
        exact hinv a ha

/-- C2.  What does hold: a poll cycle (`process_queue`) preserves
`0 <= current_call_count <= max_concurrent_calls` for every agent (given
unique agent ids), because `process_queue` assigns only to agents returned
by `get_available_agent`, whose WHERE clause requires
`current_call_count < max_concurrent_calls`.  The claim's stronger form —
that ANY sequence of `assign_to_agent` calls preserves the bound — is
false: `assign_to_agent` increments unconditionally (see the
counterexample). -/
theorem c2_poll_cycle_preserves_capacity :
    ∀ (db : DB) (g : Bool) (t : Nat),
      (db.agents.map Agent.agentId).Nodup →
      agentsWithinCapacity db = true →
      agentsWithinCapacity (process_queue g t db) = true := by
  intro db g t hids hinv
  rw [agentsWithinCapacity, List.all_eq_true]
  intro a ha
  rw [decide_eq_true_eq]
  refine processCalls_preserves_capacity g t (get_waiting_calls db) db hids
    ?_ a ha
  intro b hb
  have hb2 := (List.all_eq_true.mp hinv) b hb
  simpa using hb2

/-- C2 witness: a concrete cycle on a store with one waiting call and one
free agent keeps every agent within capacity. -/
theorem c2_capacity_witness :
    agentsWithinCapacity (process_queue true 0 dbC2w) = true :=
  c2_poll_cycle_preserves_capacity dbC2w true 0 (by decide) (by decide)

/-- C2 counterexample: starting from a store satisfying the invariant
(agent 1 exactly at capacity 1/1), a single `assign_to_agent` targeting
that agent reports success and pushes `current_call_count` to 2, above
`max_concurrent_calls` — the operation itself never checks capacity. -/
theorem c2_direct_assign_exceeds_capacity :
    agentsWithinCapacity dbC2 = true ∧
    (assign_to_agent 0 1 1 dbC2).1 = true ∧
    ((assign_to_agent 0 1 1 dbC2).2.agents.find? (fun a => a.agentId == 1)).map
        Agent.currentCallCount = some 2 ∧
    agentsWithinCapacity (assign_to_agent 0 1 1 dbC2).2 = false := by
  refine ⟨by decide, rfl, by decide, by decide⟩

/-- C4.  A failed gateway dispatch leaves the store untouched (the entry
stays `Waiting`, to be retried next cycle) and reports failure; a
successful dispatch moves the waiting entry to `assigned` with
`assigned_agent_id` still NULL and `assigned_at` set. -/
theorem c4_ai_dispatch_outcomes :
    (∀ (t qid : Nat) (db : DB), dispatch_to_ai false t qid db = (false, db)) ∧
    (∀ (t qid : Nat) (db : DB) (e : QueueEntry),
      db.queue.find? (byId qid) = some e →
      e.status = QueueStatus.waiting →
      e.assignedAgentId = none →
      ∃ e2, (dispatch_to_ai true t qid db).2.queue.find? (byId qid) = some e2 ∧
        e2.status = QueueStatus.assigned ∧ e2.assignedAgentId = none ∧
        e2.assignedAt = some t ∧ (dispatch_to_ai true t qid db).1 = true) := by
  constructor
  · intro t qid db
    rfl
  · intro t qid db e hf hw hn
    refine ⟨{ e with status := QueueStatus.assigned, assignedAt := some t },
      ?_, rfl, hn, rfl, rfl⟩
    have h := find?_rewrite_key QueueEntry.queueId
      (fun e => { e with status := QueueStatus.assigned, assignedAt := some t })
      qid (fun _ => rfl) db.queue
    have hf2 : List.find? (fun a => a.queueId == qid) db.queue = some e := hf
    exact h.trans (by rw [hf2]; rfl)

/-- C4 witness: dispatching entry 1 of `dbC4` to the AI at time 9. -/
theorem c4_ai_dispatch_witness :
    ∃ e2, (dispatch_to_ai true 9 1 dbC4).2.queue.find? (byId 1) = some e2 ∧
      e2.status = QueueStatus.assigned ∧ e2.assignedAgentId = none ∧
      e2.assignedAt = some 9 ∧ (dispatch_to_ai true 9 1 dbC4).1 = true :=
  c4_ai_dispatch_outcomes.2 9 1 dbC4 entryC4 (by decide) (by decide) (by decide)

/-- C5.  `get_waiting_calls` returns exactly the `waiting` rows, sorted by
priority descending then join time ascending (the comparison never reads
the entry id); concretely, with priorities [Low, High, Normal, Normal]
inserted in that creation order and one eligible agent, the poll cycle
serves the High entry (id 2) first and gives it the only human agent,
and within the Normal band id 9 (created earlier) precedes id 3. -/
theorem c5_priority_then_fifo_order :
    (∀ db : DB, List.Sorted waitingOrder (get_waiting_calls db) ∧
       ∀ e : QueueEntry, e ∈ get_waiting_calls db ↔
         e ∈ db.queue ∧ e.status = QueueStatus.waiting) ∧
    ((get_waiting_calls dbC5).map QueueEntry.queueId = [2, 9, 3, 1] ∧
     ((process_queue true 7 dbC5).queue.find? (byId 2)).map
         QueueEntry.assignedAgentId = some (some 7) ∧
     ((process_queue true 7 dbC5).queue.find? (byId 1)).map
         QueueEntry.assignedAgentId = some none ∧
     ((process_queue true 7 dbC5).queue.find? (byId 3)).map
         QueueEntry.assignedAgentId = some none ∧
     ((process_queue true 7 dbC5).queue.find? (byId 9)).map
         QueueEntry.assignedAgentId = some none) := by
  constructor
  · intro db
    constructor
    · exact List.sorted_insertionSort waitingOrder _
    · intro e
      rw [get_waiting_calls, List.mem_insertionSort, List.mem_filter,
        beq_iff_eq]
  · exact ⟨by decide, by decide, by decide, by decide, by decide⟩

/-- C6 (evaluating the code at the failing input).  The transfer route
returns the `call_sessions` table unchanged on every path — it never calls
`update_session_handler` or `log_transfer` — so even a fully successful
cold transfer leaves `handled_by = "ai"`, `transfer_count = 0` and
`agent_id = NULL` on the session, contradicting the claimed session
update. -/
theorem c6_transfer_route_leaves_session_unchanged :
    (∀ (env : GatewayEnv) (db : DB) (sessions : List CallSession)
       (sid raid : Nat) (ttype reason trunk : String),
       (transfer_call env db sessions sid raid ttype reason trunk).2
         = sessions) ∧
    ((transfer_call envC6 dbC6 [sessionC6] 1 7 "cold" "" "trunk-1").1.toOption
       = some { success := true,
                message := "Call transferred to agent 7",
                agentId := 7, transferType := "cold" } ∧
     (transfer_call envC6 dbC6 [sessionC6] 1 7 "cold" "" "trunk-1").2
       = [sessionC6]) := by
  constructor
  · intro env db sessions sid raid ttype reason trunk
    unfold transfer_call
    cases sessions.find? (fun s => s.sessionId == sid) with
    | none => rfl
    | some call =>
      cases db.agents.find? (fun a => a.agentId == raid) with
      | none => rfl
      | some agent => rfl
  · exact ⟨by decide, by decide⟩

/-- C7.  `warm_transfer` issues exactly one gateway operation (the
consultation-room dial), reports success exactly when that dial succeeds,
and its result does not depend on whether the dialled human ever picks up
— there is no pickup wait beyond a fixed 3-second sleep and no
pickup-timeout failure path. -/
theorem c7_warm_transfer_one_dial_no_pickup_check :
    ∀ (env : GatewayEnv) (callerRoom agentPhone sipTrunkId ctx : String)
      (sid : Nat),
      (warm_transfer env callerRoom agentPhone sipTrunkId ctx sid).1.success
        = env.dialOk ∧
      ((warm_transfer env callerRoom agentPhone sipTrunkId ctx sid).2.filter
          isDialOp).length = 1 ∧
      warm_transfer { env with agentPicksUp := true }
          callerRoom agentPhone sipTrunkId ctx sid
        = warm_transfer { env with agentPicksUp := false }
          callerRoom agentPhone sipTrunkId ctx sid := by
  intro env callerRoom agentPhone sipTrunkId ctx sid
  obtain ⟨lo, ps, tok, dk, ap⟩ := env
  cases dk <;> exact ⟨rfl, rfl, rfl⟩

/-- C7 counterexample: the dial succeeds but the agent never picks up; the
claim requires a reported failure, yet the attempt reports success. -/
theorem c7_no_pickup_still_success :
    envC7.agentPicksUp = false ∧
    (warm_transfer envC7 "room-1" "+15551234" "trunk-1" "ctx" 12).1.success
      = true ∧
    ((warm_transfer envC7 "room-1" "+15551234" "trunk-1" "ctx" 12).2.filter
        isDialOp).length = 1 := by
  exact ⟨rfl, rfl, rfl⟩

theorem posPred_eq_ahead {qid p : Nat} {y : QueueEntry}
    (h : y.queueId ≠ qid) :
    posPred qid p y = aheadPred qid p y := by
  have hbeq : (y.queueId == qid) = false := by simpa using h
  have hle : decide (y.queueId ≤ qid) = decide (y.queueId < qid) := by
    rw [decide_eq_decide]
    omega
  unfold posPred aheadPred
  rw [hbeq, hle]
  simp

theorem posCount_split (qid : Nat) (e : QueueEntry)
    (he : e.status = QueueStatus.waiting) :
    ∀ l : List QueueEntry, (l.map QueueEntry.queueId).Nodup →
      l.find? (byId qid) = some e →
      (l.filter (posPred qid e.priority)).length
        = 1 + (l.filter (aheadPred qid e.priority)).length := by
  intro l
  induction l with
  | nil => intro _ hf; simp at hf
  | cons x xs ih =>
    intro hnd hf
    rw [List.map_cons, List.nodup_cons] at hnd
    by_cases hx : x.queueId = qid
    · have hb : byId qid x = true := by simp [byId, hx]
      rw [List.find?_cons_of_pos _ hb] at hf
      have hex : x = e := Option.some.inj hf
      subst hex
      have hpos : posPred qid x.priority x = true := by
        simp [posPred, he, hx]
      have hneg : aheadPred qid x.priority x = false := by
        simp [aheadPred, hx]
      have hflt : xs.filter (posPred qid x.priority)
          = xs.filter (aheadPred qid x.priority) := by
        apply List.filter_congr
        intro y hy
        apply posPred_eq_ahead
        intro hyq
        apply hnd.1
        rw [hx, ← hyq]
        exact List.mem_map_of_mem QueueEntry.queueId hy
      simp [List.filter_cons, hpos, hneg, hflt]
      omega
    · have hb : ¬ byId qid x = true := by simp [byId, hx]
      rw [List.find?_cons_of_neg _ hb] at hf
      have hpe : posPred qid e.priority x = aheadPred qid e.priority x :=
        posPred_eq_ahead hx
      rw [List.filter_cons, List.filter_cons, hpe]
      cases hq : aheadPred qid e.priority x with
      | false => simpa [hq] using ih hnd.2 hf
      | true =>
        simp only [hq, if_true, List.length_cons]
        rw [ih hnd.2 hf]
        omega

/-- C10.  For a waiting entry, `get_queue_position` returns 1 plus the
number of other waiting entries with strictly higher priority or with
equal priority and a smaller entry id (given unique ids) — ties inside a
priority band are ranked by `queue_id`, not by join time.  Concretely, in
`dbC10` the entry with id 2 was created first (join time 1) and is served
first by the poll cycle, yet its reported position is 2 while the
later-created entry with id 1 reports position 1. -/
theorem c10_position_priority_then_id :
    (∀ (db : DB) (qid : Nat) (e : QueueEntry),
       (db.queue.map QueueEntry.queueId).Nodup →
       db.queue.find? (byId qid) = some e →
       e.status = QueueStatus.waiting →
       get_queue_position db qid
         = some (1 + (db.queue.filter (aheadPred qid e.priority)).length)) ∧
    (get_queue_position dbC10 2 = some 2 ∧
     get_queue_position dbC10 1 = some 1 ∧
     (get_waiting_calls dbC10).map QueueEntry.queueId = [2, 1]) := by
  constructor
  · intro db qid e hnd hf he
    unfold get_queue_position
    rw [hf]
    exact congrArg some (posCount_split qid e he db.queue hnd hf)
  · exact ⟨by decide, by decide, by decide⟩

/-- C10 witness: the position formula instantiated on `dbC10` at entry
id 2 — one other waiting entry (id 1) ties on priority with a smaller id,
so the position is 2. -/
theorem c10_position_witness :
    get_queue_position dbC10 2
      = some (1 + (dbC10.queue.filter (aheadPred 2 entryC10a.priority)).length) :=
  c10_position_priority_then_id.1 dbC10 2 entryC10a (by decide) (by decide)
    (by decide)

end AgnoX
